import Mathlib

/-!
A shallow embedding of the GeoServer publishing module
(`geocatbridge/publish/geoserver.py`) and proofs about it.

The embedding models:
  * the Python string operations the module uses (`strip`, `endswith`,
    `split`, `os.path.splitext`, `os.path.basename`, `int`) as executable
    functions over `String` / `List Char`;
  * JSON response bodies as an inductive `JVal` and the REST responses of
    the remote GeoServer as values of `JVal` generated from an explicit
    remote-server state;
  * the per-session mutable attributes of `GeoserverServer`
    (`_layersCache`, `_uploadedDatasets`, `_exportedLayers`,
    `_publishedLayers`, `_postgisDatastoreExists`) as fields of a state
    record threaded through each operation;
  * every HTTP request issued as an entry appended to a request trace,
    with the remote state updated according to the documented REST
    semantics of the endpoint (create / update / delete).

External collaborators (the layer exporter, style converter, sqlite
lookup of the uploaded GeoPackage, the external PostGIS profile registry)
are supplied as an oracle environment `Env`; the module under study only
consumes their results.
-/

namespace GeoBridge

/-! ## Python string primitives -/

/-- Python `s.strip("/")`: remove leading and trailing `/` characters. -/
def pyStripSlashes (s : String) : String :=
  ⟨((s.data.dropWhile (fun c => c == '/')).reverse.dropWhile (fun c => c == '/')).reverse⟩

/-- Python `s.endswith(suffix)`. -/
def pyEndsWith (s suf : String) : Bool :=
  suf.data.isSuffixOf s.data

/-- Python `sub in s` for strings (substring containment). -/
def pyContains (s sub : String) : Bool :=
  (List.range (s.data.length + 1)).any (fun i => sub.data.isPrefixOf (s.data.drop i))

/-- Python `s.split(sep)` for a one-character separator, over char lists. -/
def pySplitCharAux (sep : Char) : List Char → List Char → List (List Char)
  | [], acc => [acc.reverse]
  | c :: cs, acc =>
      if c == sep then acc.reverse :: pySplitCharAux sep cs []
      else pySplitCharAux sep cs (c :: acc)

/-- Python `s.split(sep)` for a one-character separator. -/
def pySplitChar (s : String) (sep : Char) : List String :=
  (pySplitCharAux sep s.data []).map (fun l => ⟨l⟩)

/-- Python `s.lower()` restricted to ASCII, which is all the module needs. -/
def pyLower (s : String) : String :=
  ⟨s.data.map Char.toLower⟩

/-- Characters Python's `int()` treats as leading/trailing whitespace. -/
def pyIsSpace (c : Char) : Bool :=
  c == ' ' || c == '\t' || c == '\n' || c == '\r'

/-- Decimal digits to a natural number. -/
def digitsToNat (ds : List Char) : Nat :=
  ds.foldl (fun n c => 10 * n + (c.toNat - '0'.toNat)) 0

/-- Python `int(s)` on a plain decimal string: optional surrounding
whitespace, optional sign, at least one digit; `none` models the
`ValueError` raised otherwise. -/
def pyInt (s : String) : Option Int :=
  let t := (s.data.dropWhile pyIsSpace).reverse.dropWhile pyIsSpace |>.reverse
  match t with
  | [] => none
  | '-' :: ds => if ds ≠ [] ∧ ds.all Char.isDigit then some (-(digitsToNat ds : Int)) else none
  | '+' :: ds => if ds ≠ [] ∧ ds.all Char.isDigit then some (digitsToNat ds : Int) else none
  | ds => if ds.all Char.isDigit then some (digitsToNat ds : Int) else none

/-- Python `os.path.basename(s)` with `/` as separator. -/
def pyBasename (s : String) : String :=
  ⟨(s.data.reverse.takeWhile (fun c => c != '/')).reverse⟩

/-- The extension component of Python `os.path.splitext(s)`: the part of
the basename from its last dot on, unless every character of the basename
before that dot is itself a dot (leading dots carry no extension). -/
def pySplitextExt (s : String) : String :=
  let base := (s.data.reverse.takeWhile (fun c => c != '/')).reverse
  let aft := base.reverse.takeWhile (fun c => c != '.')
  if aft.length == base.length then ""
  else
    let pre := base.take (base.length - aft.length - 1)
    if pre.all (fun c => c == '.') then "" else ⟨'.' :: aft.reverse⟩

/-- The root component of Python `os.path.splitext(s)`: the input minus
its extension. -/
def pySplitextRoot (s : String) : String :=
  ⟨s.data.take (s.data.length - (pySplitextExt s).data.length)⟩

/-! ## JSON values and response bodies -/

/-- A JSON value, as far as the module inspects response bodies: strings,
arrays and objects. -/
inductive JVal where
  | jstr (s : String)
  | jarr (xs : List JVal)
  | jobj (fields : List (String × JVal))

mutual

/-- Boolean equality on JSON values (Python `==`). -/
def JVal.beq : JVal → JVal → Bool
  | .jstr a, .jstr b => a == b
  | .jarr xs, .jarr ys => JVal.beqList xs ys
  | .jobj fs, .jobj gs => JVal.beqFields fs gs
  | _, _ => false

/-- Boolean equality on JSON arrays. -/
def JVal.beqList : List JVal → List JVal → Bool
  | [], [] => true
  | x :: xs, y :: ys => JVal.beq x y && JVal.beqList xs ys
  | _, _ => false

/-- Boolean equality on JSON object field lists. -/
def JVal.beqFields : List (String × JVal) → List (String × JVal) → Bool
  | [], [] => true
  | (k, v) :: fs, (l, w) :: gs => k == l && JVal.beq v w && JVal.beqFields fs gs
  | _, _ => false

end

instance : BEq JVal := ⟨JVal.beq⟩

/-- Python `d[k]` on a JSON value: succeeds only on objects holding the
key; `none` models the `KeyError`/`TypeError` raised otherwise. -/
def JVal.getItem : JVal → String → Option JVal
  | .jobj fields, k => (fields.find? (fun p => p.1 == k)).map Prod.snd
  | _, _ => none

/-- Python `k in v` on a JSON value: key membership for objects, substring
containment for strings, element membership for arrays. -/
def JVal.pyIn (k : String) : JVal → Bool
  | .jobj fields => fields.any (fun p => p.1 == k)
  | .jstr s => pyContains s k
  | .jarr xs => xs.any (fun x => x == .jstr k)

/-- Collect `x["name"]` for each element, failing if any lookup fails. -/
def JVal.itemNamesGo : List JVal → Option (List JVal)
  | [] => some []
  | x :: xs =>
    match x.getItem "name" with
    | none => none
    | some v =>
      match JVal.itemNamesGo xs with
      | none => none
      | some vs => some (v :: vs)

/-- The list comprehension `[s["name"] for s in root[category]]`:
succeeds only when `root[category]` is an array of objects each holding a
`"name"` key; `none` models the exception raised otherwise. -/
def JVal.itemNames (root : JVal) (category : String) : Option (List JVal) :=
  match root.getItem category with
  | some (.jarr xs) => JVal.itemNamesGo xs
  | _ => none

/-- The body GeoServer returns for a category listing endpoint such as
`/workspaces/{ws}/layers.json`: `{"<cat>s": {"<cat>": [{"name": ...},
...]}}` when the listing is non-empty and `{"<cat>s": ""}` when it is
empty (which is why the source guards with `if category in root`).
Modelled from the spec: the remote server is an external system; this is
the documented response shape the source code parses. -/
def categoryJson (category : String) (names : List String) : JVal :=
  .jobj [(category ++ "s",
    if names.isEmpty then .jstr ""
    else .jobj [(category, .jarr (names.map (fun n => .jobj [("name", .jstr n)])))])]

/-! ## The per-session layer-existence cache and `_exists` -/

/-- The three states `self._layersCache` can be in: the empty dict `{}`
assigned in `__init__`, the `None` assigned by `_clearCache`, or the list
of name values stored by `_exists` after a successful probe. -/
inductive LayersCache where
  | initDict
  | cleared
  | filled (items : List JVal)

/-- The Python test `self._layersCache is None`. -/
def LayersCache.isNone : LayersCache → Bool
  | .cleared => true
  | _ => false

/-- Python `name in items` where `items` is the cached value: key
membership for the initial `{}`, element equality for a stored list. The
`cleared` case is unreachable in the source (guarded by `is None`). -/
def LayersCache.pyMem (name : String) : LayersCache → Bool
  | .initDict => false
  | .cleared => false
  | .filled items => items.any (fun x => x == JVal.jstr name)

/-- The observable outcome of one transport request: a network failure
(`ConnectivityError`), a non-2xx response (the transport raises), or a
2xx response carrying a JSON body. Modelled from the spec: the transport
layer (`ServerBase.request`) is outside this module and raises a
distinguished error on network failure and on 4xx/5xx responses. -/
inductive ReqOutcome where
  | connectivityError
  | httpError (status : Nat)
  | ok (body : JVal)

/-- `GeoserverServer._exists(url, category, name)`, with the transport
outcome of the (at most one) request passed in explicitly. Returns the
boolean result, the new `_layersCache`, and whether the probe request was
actually issued. Any exception along the way — connectivity failure,
non-2xx response, missing key, or a malformed listing — is swallowed by
the source's bare `except` and yields `false`. -/
def existsImpl (cache : LayersCache) (category name : String) (outcome : ReqOutcome) :
    Bool × LayersCache × Bool :=
  if category != "layer" || cache.isNone then
    match outcome with
    | .connectivityError => (false, cache, true)
    | .httpError _ => (false, cache, true)
    | .ok body =>
      match body.getItem (category ++ "s") with
      | none => (false, cache, true)
      | some root =>
        if root.pyIn category then
          match root.itemNames category with
          | none => (false, cache, true)
          | some items =>
            let cache' := if category == "layer" then .filled items else cache
            (items.any (fun x => x == JVal.jstr name), cache', true)
        else (false, cache, true)
  else
    (cache.pyMem name, cache, false)

/-! ## Session state, request trace, and remote-state semantics -/

/-- HTTP methods used by the module. -/
inductive Method where
  | GET
  | PUT
  | POST
  | DELETE
deriving DecidableEq

/-- Round half to even, the rounding mode of Python's builtin `round`. -/
def roundHalfEven (q : ℚ) : ℤ :=
  if Int.fract q < 1/2 then ⌊q⌋
  else if 1/2 < Int.fract q then ⌊q⌋ + 1
  else if ⌊q⌋ % 2 = 0 then ⌊q⌋ else ⌊q⌋ + 1

/-- Python `round(x, 5)`: the nearest multiple of `1/100000`, ties to
even. Numeric values are modelled as exact rationals. -/
def pyRound5 (q : ℚ) : ℚ :=
  (roundHalfEven (q * 100000) : ℚ) / 100000

/-- The `nativeBoundingBox` object written into a feature-type update
(source lines 242-248). -/
structure NativeBoundingBox where
  minx : ℚ
  maxx : ℚ
  miny : ℚ
  maxy : ℚ
  srs : String

/-- The rewritten fields of a feature-type body PUT/POSTed by the
publishers; the remaining fields of the fetched template pass through
untouched and are not modelled. The PostGIS import path rewrites only
name and title, hence the optional bounding box. -/
structure FeatureType where
  name : String
  title : String
  nativeBoundingBox : Option NativeBoundingBox

/-- The body of an issued request, kept structured only where a claim
inspects it (the feature-type update). -/
inductive ReqBody where
  | ft (f : FeatureType)
  | other

/-- One issued HTTP request. -/
structure Req where
  method : Method
  url : String
  body : Option ReqBody

/-- The remote GeoServer state the session's workspace sees: which
workspaces exist, and the layers, styles and datastores of the session
workspace. Modelled from the spec: the remote server is the external
system the module reconciles against; a successful create/update/delete
request has the documented REST effect on this state. -/
structure Remote where
  workspaces : List String
  layers : List String
  styles : List String
  datastores : List String

/-- The state of one `GeoserverServer` instance mid-session: its
configuration attributes, its per-session mutable attributes, the remote
server state, the trace of issued requests, and the error log. -/
structure GSState where
  url : String
  ws : String
  storage : Nat
  useOriginalDataSource : Bool
  postgisdb : Option String
  remote : Remote
  layersCache : LayersCache
  uploadedDatasets : List (String × String × String)
  exportedLayers : List (String × String)
  publishedLayers : List String
  postgisDatastoreExists : Bool
  requests : List Req
  errors : List String

/-- `GeoserverServer.FILE_BASED`. -/
def FILE_BASED : Nat := 0

/-- `GeoserverServer.POSTGIS_MANAGED_BY_BRIDGE`. -/
def POSTGIS_MANAGED_BY_BRIDGE : Nat := 1

/-- `GeoserverServer.POSTGIS_MANAGED_BY_GEOSERVER`. -/
def POSTGIS_MANAGED_BY_GEOSERVER : Nat := 2

/-- Append one issued request to the trace. -/
def issue (st : GSState) (m : Method) (u : String) (b : Option ReqBody) : GSState :=
  { st with requests := st.requests ++ [⟨m, u, b⟩] }

/-- `ServerBase.logError`: append to the error log. Modelled from the
spec: logging lives in the base class outside this module. -/
def logError (st : GSState) (msg : String) : GSState :=
  { st with errors := st.errors ++ [msg] }

/-- `_clearCache` (source line 461): `self._layersCache = None`. -/
def _clearCache (st : GSState) : GSState :=
  { st with layersCache := .cleared }

/-- `layerExists(name)`: `_exists` on `{url}/workspaces/{ws}/layers.json`
with category `"layer"`; in this success model the probe, when it is
issued, returns the listing generated from the remote state. -/
def layerExists (st : GSState) (name : String) : GSState × Bool :=
  let u := st.url ++ "/workspaces/" ++ st.ws ++ "/layers.json"
  let r := existsImpl st.layersCache "layer" name (.ok (categoryJson "layer" st.remote.layers))
  ({ st with layersCache := r.2.1,
             requests := st.requests ++ (if r.2.2 then [⟨.GET, u, none⟩] else []) }, r.1)

/-- `styleExists(name)`: `_exists` on the workspace styles listing,
category `"style"` (never cached). -/
def styleExists (st : GSState) (name : String) : GSState × Bool :=
  let u := st.url ++ "/workspaces/" ++ st.ws ++ "/styles.json"
  let r := existsImpl st.layersCache "style" name (.ok (categoryJson "style" st.remote.styles))
  ({ st with layersCache := r.2.1,
             requests := st.requests ++ (if r.2.2 then [⟨.GET, u, none⟩] else []) }, r.1)

/-- `workspaceExists()`: `_exists` on `{url}/workspaces.json`, category
`"workspace"` (never cached), probing for the session workspace name. -/
def workspaceExists (st : GSState) : GSState × Bool :=
  let u := st.url ++ "/workspaces.json"
  let r := existsImpl st.layersCache "workspace" st.ws
    (.ok (categoryJson "workspace" st.remote.workspaces))
  ({ st with layersCache := r.2.1,
             requests := st.requests ++ (if r.2.2 then [⟨.GET, u, none⟩] else []) }, r.1)

/-- `datastoreExists(name)`: `_exists` on the workspace datastores
listing, category `"dataStore"` (never cached). -/
def datastoreExists (st : GSState) (name : String) : GSState × Bool :=
  let u := st.url ++ "/workspaces/" ++ st.ws ++ "/datastores.json"
  let r := existsImpl st.layersCache "dataStore" name
    (.ok (categoryJson "dataStore" st.remote.datastores))
  ({ st with layersCache := r.2.1,
             requests := st.requests ++ (if r.2.2 then [⟨.GET, u, none⟩] else []) }, r.1)

/-- `layers()` (source lines 485-492): fetch the workspace layer listing
and return the names, or `[]` when the listing has no `"layer"` key. The
`getD` defaults are unreachable for the listings this success model
generates. -/
def layersOp (st : GSState) : GSState × List String :=
  let u := st.url ++ "/workspaces/" ++ st.ws ++ "/layers.json"
  let st := issue st .GET u none
  let root := (categoryJson "layer" st.remote.layers).getItem "layers" |>.getD (.jstr "")
  if root.pyIn "layer" then
    (st, ((root.itemNames "layer").getD []).filterMap
      (fun x => match x with | .jstr s => some s | _ => none))
  else (st, [])

/-- `deleteLayer(name, recurse=True)` (source lines 521-525): checks
`layerExists` (which can fill the cache), then issues the DELETE, whose
remote effect removes the layer. Note: the source does not call
`_clearCache` here. -/
def deleteLayer (st : GSState) (name : String) (recurse : Bool) : GSState :=
  let p := layerExists st name
  let st := p.1
  if p.2 then
    let recurseParam := if recurse then "recurse=true" else ""
    let u := st.url ++ "/workspaces/" ++ st.ws ++ "/layers/" ++ name ++ ".json?" ++ recurseParam
    let st := issue st .DELETE u none
    { st with remote := { st.remote with layers := st.remote.layers.erase name } }
  else st

/-- `deleteWorkspace()` (source lines 566-570): if the workspace exists,
issue a recursive DELETE — whose remote effect removes the workspace and
everything in it — and clear the layer cache. -/
def deleteWorkspace (st : GSState) : GSState :=
  let p := workspaceExists st
  let st := p.1
  if p.2 then
    let u := st.url ++ "/workspaces/" ++ st.ws ++ "?recurse=true"
    let st := issue st .DELETE u none
    let st := { st with remote := { st.remote with
      workspaces := st.remote.workspaces.erase st.ws,
      layers := [], styles := [], datastores := [] } }
    _clearCache st
  else st

/-- `deleteStyle(name)` (source lines 456-459). -/
def deleteStyle (st : GSState) (name : String) : GSState :=
  let p := styleExists st name
  let st := p.1
  if p.2 then
    let u := st.url ++ "/workspaces/" ++ st.ws ++ "/styles/" ++ name ++ "?purge=true&recurse=true"
    let st := issue st .DELETE u none
    { st with remote := { st.remote with styles := st.remote.styles.erase name } }
  else st

/-- `_ensureWorkspaceExists()` (source lines 616-620): POST the workspace
if absent; the remote effect creates it. -/
def _ensureWorkspaceExists (st : GSState) : GSState :=
  let p := workspaceExists st
  let st := p.1
  if ¬ p.2 then
    let st := issue st .POST (st.url ++ "/workspaces") none
    { st with remote := { st.remote with workspaces := st.remote.workspaces ++ [st.ws] } }
  else st

/-- `willDeleteLayersOnPublication(toPublish)` (source lines 502-508):
`bool(set(layers) - set(toPublish))` when the workspace exists, `False`
otherwise. -/
def willDeleteLayersOnPublication (st : GSState) (toPublish : List String) : GSState × Bool :=
  let p := workspaceExists st
  let st := p.1
  if p.2 then
    let q := layersOp st
    (q.1, if q.2.toFinset \ toPublish.toFinset = ∅ then false else true)
  else (st, false)

/-! ## Layers, oracles, and the publish dispatch -/

/-- The two layer kinds `publishLayer` dispatches on. -/
inductive LayerType where
  | VectorLayer
  | RasterLayer
deriving DecidableEq

/-- The attributes of a QGIS layer the module reads. Extent coordinates
are modelled as exact rationals. -/
structure Layer where
  type : LayerType
  featureCount : Nat
  name : String
  source : String
  providerName : String
  xmin : ℚ
  xmax : ℚ
  ymin : ℚ
  ymax : ℚ
  authid : String

/-- Results of the external collaborators (layer exporter, sqlite lookup
on the exported GeoPackage, the PostGIS profile registry, the style
converter, the import-job ids assigned by the server), supplied as
oracles: the module only consumes them. -/
structure Env where
  exportLayerPath : String → String
  exportShpPath : String → String
  gpkgTableName : String → String
  postgisDbFound : Bool
  importId : Nat
  taskId : Nat
  spriteSheetProduced : Bool
  gwcHasVTFormat : Bool

/-- A Python exception, as far as control flow distinguishes them. -/
inductive PyErr where
  | typeError (msg : String)
  | keyError (key : String)
  | valueError (msg : String)
  | attributeError (msg : String)
  | exception (msg : String)
deriving DecidableEq

/-- Insert a name into a remote listing if absent (idempotent create). -/
def addIfAbsent (l : List String) (x : String) : List String :=
  if l.contains x then l else l ++ [x]

/-- The `nativeBoundingBox` value built at source lines 242-248: each
live extent coordinate passed through `round(·, 5)`, and the layer CRS
authority code as `srs`. -/
def nativeBBoxOf (layer : Layer) : NativeBoundingBox :=
  { minx := pyRound5 layer.xmin
    maxx := pyRound5 layer.xmax
    miny := pyRound5 layer.ymin
    maxy := pyRound5 layer.ymax
    srs := layer.authid }

/-- The feature-type rewrite of `_publishVectorLayerFromFile` (source
lines 239-248): name and title set to the layer name and the
`nativeBoundingBox` replaced; all other template fields pass through. -/
def featureTypeUpdate (layer : Layer) : FeatureType :=
  { name := layer.name, title := layer.name, nativeBoundingBox := some (nativeBBoxOf layer) }

/-- `_setLayerStyle(layername, stylename)` (source lines 605-614): fetch
the layer descriptor and PUT it back with the default style set; the
style name only shapes the unmodelled body. -/
def _setLayerStyle (st : GSState) (layername stylename : String) : GSState :=
  let u := st.url ++ "/workspaces/" ++ st.ws ++ "/layers/" ++ layername ++ ".json"
  let st := issue st .GET u none
  let st := issue st .PUT u (some .other)
  let _ := stylename
  st

/-- `_deleteDatastore(name)` (source lines 514-519): best-effort DELETE,
any failure swallowed; the request is issued either way. -/
def _deleteDatastore (st : GSState) (name : String) : GSState :=
  let u := st.url ++ "/workspaces/" ++ st.ws ++ "/datastores/" ++ name ++ "?recurse=true"
  let st := issue st .DELETE u none
  { st with remote := { st.remote with datastores := st.remote.datastores.erase name } }

/-- `_publishVectorLayerFromFile(layer, filename)` (source lines
220-255): on first upload of the file, delete any prior datastore of the
layer name, PUT the GeoPackage, look up the table name via sqlite and
record the upload; then fetch the template feature type, rewrite it
(`featureTypeUpdate`), POST (reused dataset) or PUT (fresh dataset) it,
and bind the default style. -/
def _publishVectorLayerFromFile (env : Env) (st : GSState) (layer : Layer) (filename : String) :
    GSState :=
  let name := layer.name
  let isDataUploaded := (st.uploadedDatasets.find? (fun p => p.1 == filename)).isSome
  let st :=
    if ¬ isDataUploaded then
      let st := _deleteDatastore st name
      let u := st.url ++ "/workspaces/" ++ st.ws ++ "/datastores/" ++ name
        ++ "/file.gpkg?update=overwrite"
      let st := issue st .PUT u (some .other)
      let st := { st with remote := { st.remote with
        datastores := addIfAbsent st.remote.datastores name } }
      let tablename := env.gpkgTableName filename
      { st with uploadedDatasets := st.uploadedDatasets ++ [(filename, name, tablename)] }
    else st
  let pair := ((st.uploadedDatasets.find? (fun p => p.1 == filename)).map Prod.snd).getD ("", "")
  let datasetName := pair.1
  let geoserverLayerName := pair.2
  let ftUrl := st.url ++ "/workspaces/" ++ st.ws ++ "/datastores/" ++ datasetName
    ++ "/featuretypes/" ++ geoserverLayerName ++ ".json"
  let st := issue st .GET ftUrl none
  let ft := featureTypeUpdate layer
  let st :=
    if isDataUploaded then
      issue st .POST (st.url ++ "/workspaces/" ++ st.ws ++ "/datastores/" ++ datasetName
        ++ "/featuretypes") (some (.ft ft))
    else
      issue st .PUT ftUrl (some (.ft ft))
  let st := { st with remote := { st.remote with layers := addIfAbsent st.remote.layers name } }
  _setLayerStyle st name name

/-- `_publishVectorLayerFromPostgis(layer, db)` (source lines 257-292):
POST a PostGIS datastore named after the layer (its connection-parameter
body comes from the external database profile and is not modelled), POST
a feature type for it, and bind the default style. -/
def _publishVectorLayerFromPostgis (st : GSState) (layer : Layer) : GSState :=
  let name := layer.name
  let st := issue st .POST (st.url ++ "/workspaces/" ++ st.ws ++ "/datastores/") (some .other)
  let st := { st with remote := { st.remote with
    datastores := addIfAbsent st.remote.datastores name } }
  let st := issue st .POST (st.url ++ "/workspaces/" ++ st.ws ++ "/datastores/" ++ name
    ++ "/featuretypes") (some .other)
  let st := { st with remote := { st.remote with layers := addIfAbsent st.remote.layers name } }
  _setLayerStyle st name name

/-- `createPostgisDatastore()` (source lines 192-203): split the
configured `workspace:datastore` reference (raising if it is unset or not
of that shape), and if the session workspace lacks the datastore, fetch
the source datastore descriptor and POST a copy. -/
def createPostgisDatastore (st : GSState) : GSState × Option PyErr :=
  match st.postgisdb with
  | none => (st, some (.attributeError "NoneType has no attribute split"))
  | some pg =>
    match pySplitChar pg ':' with
    | [ws2, name] =>
      let p := datastoreExists st name
      let st := p.1
      if ¬ p.2 then
        let st := issue st .GET (st.url ++ "/workspaces/" ++ ws2 ++ "/datastores/" ++ name
          ++ ".json") none
        let st := issue st .POST (st.url ++ "/workspaces/" ++ st.ws ++ "/datastores") (some .other)
        ({ st with remote := { st.remote with
          datastores := addIfAbsent st.remote.datastores name } }, none)
      else (st, none)
    | _ => (st, some (.valueError "not enough values to unpack"))

/-- `_publishVectorLayerFromFileToPostgis(layer, filename)` (source lines
294-350): ensure the managed PostGIS datastore exists, then on first
upload of the file drive the import-job protocol (create import, create
task with the uploaded file, set the task target, execute) and record the
upload under the base name of the file; then fetch the template feature
type, rewrite name and title only, POST it (falling back to PUT on
failure — the success model keeps the POST), and bind the default
style. -/
def _publishVectorLayerFromFileToPostgis (env : Env) (st : GSState) (layer : Layer)
    (filename : String) : GSState × Option PyErr :=
  let q := createPostgisDatastore st
  match q.2 with
  | some e => (q.1, some e)
  | none =>
    let st := q.1
    match st.postgisdb with
    | none => (st, some (.attributeError "NoneType has no attribute split"))
    | some pg =>
      match pySplitChar pg ':' with
      | [_ws2, datastoreName] =>
        let name := layer.name
        let isDataUploaded := (st.uploadedDatasets.find? (fun p => p.1 == filename)).isSome
        let st :=
          if ¬ isDataUploaded then
            let st := issue st .POST (st.url ++ "/imports") (some .other)
            let st := issue st .POST (st.url ++ "/imports/" ++ toString env.importId
              ++ "/tasks") (some .other)
            let st := issue st .PUT (st.url ++ "/imports/" ++ toString env.importId ++ "/tasks/"
              ++ toString env.taskId ++ "/target") (some .other)
            let st := issue st .POST (st.url ++ "/imports/" ++ toString env.importId) none
            let layername := pySplitextRoot (pyBasename filename)
            { st with uploadedDatasets := st.uploadedDatasets
              ++ [(filename, datastoreName, layername)] }
          else st
        let pair := ((st.uploadedDatasets.find? (fun p => p.1 == filename)).map Prod.snd).getD
          ("", "")
        let datasetName := pair.1
        let geoserverLayerName := pair.2
        let ftUrl := st.url ++ "/workspaces/" ++ st.ws ++ "/datastores/" ++ datasetName
          ++ "/featuretypes/" ++ geoserverLayerName ++ ".json"
        let st := issue st .GET ftUrl none
        let ft : FeatureType := { name := name, title := name, nativeBoundingBox := none }
        let st := issue st .POST (st.url ++ "/workspaces/" ++ st.ws ++ "/datastores/"
          ++ datasetName ++ "/featuretypes") (some (.ft ft))
        let st := { st with remote := { st.remote with
          layers := addIfAbsent st.remote.layers name } }
        (_setLayerStyle st name name, none)
      | _ => (st, some (.valueError "not enough values to unpack"))

/-- `_publishRasterLayer(filename, layername)` (source lines 352-359):
ensure the workspace exists, PUT the GeoTIFF as a coverage-store payload,
and bind the default style. -/
def _publishRasterLayer (st : GSState) (filename layername : String) : GSState :=
  let st := _ensureWorkspaceExists st
  let u := st.url ++ "/workspaces/" ++ st.ws ++ "/coveragestores/" ++ layername ++ "/file.geotiff"
  let st := issue st .PUT u (some .other)
  let _ := filename
  let st := { st with remote := { st.remote with
    layers := addIfAbsent st.remote.layers layername } }
  _setLayerStyle st layername layername

/-- The error message logged for a zero-feature vector layer. -/
def zeroFeaturesMsg : String := "Layer contains zero features and cannot be published"

/-- Exception propagation: a raised error aborts the continuation,
otherwise control falls through to it. -/
def propagate (q : GSState × Option PyErr) (k : GSState → GSState × Option PyErr) :
    GSState × Option PyErr :=
  match q.2 with
  | some e => (q.1, some e)
  | none => k q.1

/-- `publishLayer(layer, fields)` (source lines 145-190): vector layers
with zero features are reported and skipped before any request; otherwise
dispatch on provider and storage strategy, keeping the per-source export
cache; every completed path ends in `_clearCache`. A raised exception
(missing PostGIS profile, malformed datastore reference) propagates and
skips the final `_clearCache`. -/
def publishLayer (env : Env) (st : GSState) (layer : Layer) : GSState × Option PyErr :=
  match layer.type with
  | .VectorLayer =>
    if layer.featureCount == 0 then
      (logError st zeroFeaturesMsg, none)
    else if layer.providerName == "postgres" && st.useOriginalDataSource then
      (_clearCache (_publishVectorLayerFromPostgis st layer), none)
    else if st.storage == FILE_BASED || st.storage == POSTGIS_MANAGED_BY_GEOSERVER then
      let st :=
        if (st.exportedLayers.find? (fun p => p.1 == layer.source)).isNone then
          if st.storage == POSTGIS_MANAGED_BY_GEOSERVER then
            let path := env.exportShpPath layer.source
            let zipfilename := pySplitextRoot path ++ ".zip"
            { st with exportedLayers := st.exportedLayers ++ [(layer.source, zipfilename)] }
          else
            { st with exportedLayers := st.exportedLayers
              ++ [(layer.source, env.exportLayerPath layer.source)] }
        else st
      let filename := ((st.exportedLayers.find? (fun p => p.1 == layer.source)).map
        Prod.snd).getD ""
      if st.storage == FILE_BASED then
        (_clearCache (_publishVectorLayerFromFile env st layer filename), none)
      else
        propagate (_publishVectorLayerFromFileToPostgis env st layer filename)
          (fun s => (_clearCache s, none))
    else if st.storage == POSTGIS_MANAGED_BY_BRIDGE then
      if env.postgisDbFound then
        (_clearCache (_publishVectorLayerFromPostgis st layer), none)
      else
        (st, some (.exception "Cannot find the selected PostGIS database"))
    else
      (_clearCache st, none)
  | .RasterLayer =>
    let st :=
      if (st.exportedLayers.find? (fun p => p.1 == layer.source)).isNone then
        { st with exportedLayers := st.exportedLayers
          ++ [(layer.source, env.exportLayerPath layer.source)] }
      else st
    let filename := ((st.exportedLayers.find? (fun p => p.1 == layer.source)).map
      Prod.snd).getD ""
    (_clearCache (_publishRasterLayer st filename layer.name), none)

/-- `prepareForPublishing(onlySymbology)` (source lines 69-76): optionally
delete the workspace, ensure it exists, and assign fresh per-session
export/upload/published collections. -/
def prepareForPublishing (st : GSState) (onlySymbology : Bool) : GSState :=
  let st := if ¬ onlySymbology then deleteWorkspace st else st
  let st := _ensureWorkspaceExists st
  { st with uploadedDatasets := [], exportedLayers := [],
            postgisDatastoreExists := false, publishedLayers := [] }

/-- `_publishStyle(name, styleFilename)` (source lines 572-601): ensure
the workspace exists, probe the style live, choose PUT on the named style
endpoint when it exists and POST on the workspace styles collection
otherwise, and then issue that request when the file extension is `.zip`
or `.mapbox` (nothing is sent for any other extension); the successful
request leaves exactly one remote style of that name. -/
def _publishStyle (st : GSState) (name styleFilename : String) : GSState :=
  let st := _ensureWorkspaceExists st
  let p := styleExists st name
  let st := p.1
  let mu : Method × String :=
    if p.2 then (.PUT, st.url ++ "/workspaces/" ++ st.ws ++ "/styles/" ++ name)
    else (.POST, st.url ++ "/workspaces/" ++ st.ws ++ "/styles?name=" ++ name)
  let ext := pyLower (pySplitextExt styleFilename)
  if ext == ".zip" then
    let st := issue st mu.1 mu.2 (some .other)
    { st with remote := { st.remote with styles := addIfAbsent st.remote.styles name } }
  else if ext == ".mapbox" then
    let st := issue st mu.1 mu.2 (some .other)
    { st with remote := { st.remote with styles := addIfAbsent st.remote.styles name } }
  else st

/-- `publishStyle(layer)` (source lines 134-143): record the layer as
published for this session and publish its zipped style package under the
layer name (the converter writes `{layer.name}.zip` in a temp folder). -/
def publishStyle (st : GSState) (layer : Layer) : GSState :=
  let st := { st with publishedLayers := addIfAbsent st.publishedLayers layer.name }
  _publishStyle st layer.name (layer.name ++ ".zip")

/-! ## Layer groups -/

mutual

/-- A group definition dict as `createGroups` receives it: the keys the
source reads (`name`, `title`, `abstract`, `layers`), each beyond `name`
possibly absent (absence models a `KeyError` on access). -/
inductive GroupDict where
  | mk (gname : String) (gtitle : Option String) (gabstract : Option String)
       (gchildren : Option (List GChild))

/-- A child of a group `layers` list: either a plain string (a leaf
layer name) or a nested dict. -/
inductive GChild where
  | lyr (name : String)
  | grp (d : GroupDict)

end

/-- The `name` key of a group dict. -/
def GroupDict.name : GroupDict → String
  | .mk n _ _ _ => n

/-- The `title` key of a group dict, if present. -/
def GroupDict.title : GroupDict → Option String
  | .mk _ t _ _ => t

/-- The `abstract` key of a group dict, if present. -/
def GroupDict.abstract : GroupDict → Option String
  | .mk _ _ a _ => a

/-- The `layers` key of a group dict, if present. -/
def GroupDict.children : GroupDict → Option (List GChild)
  | .mk _ _ _ l => l

/-- Python `s.replace(pat, rep)` (all occurrences), fuel-bounded by the
input length, which suffices for any non-empty pattern. -/
def pyReplaceGo (pat rep : List Char) : Nat → List Char → List Char
  | 0, l => l
  | _ + 1, [] => []
  | fuel + 1, c :: cs =>
    if pat.isPrefixOf (c :: cs) then rep ++ pyReplaceGo pat rep fuel ((c :: cs).drop pat.length)
    else c :: pyReplaceGo pat rep fuel cs

/-- Python `s.replace(pat, rep)` for a non-empty pattern. -/
def pyReplace (s pat rep : String) : String :=
  ⟨pyReplaceGo pat.data rep.data s.data.length s.data⟩

/-- `_publishGroupMapBox(group, qgis_layers)` (source lines 365-409):
convert the group to a mapbox style bundle (external converter), ensure
the workspace exists, delete any existing style of the group name, POST
the XML style container, PUT the style body, and upload the four sprite
sheet resources when the converter produced one. -/
def _publishGroupMapBox (env : Env) (st : GSState) (g : GroupDict) : GSState :=
  let name := g.name
  let st := _ensureWorkspaceExists st
  let p := styleExists st name
  let st := p.1
  let st := if p.2 then deleteStyle st name else st
  let st := issue st .POST (st.url ++ "/workspaces/" ++ st.ws ++ "/styles") (some .other)
  let st := { st with remote := { st.remote with styles := addIfAbsent st.remote.styles name } }
  let st := issue st .PUT (st.url ++ "/workspaces/" ++ st.ws ++ "/styles/" ++ name
    ++ "?raw=true") (some .other)
  if env.spriteSheetProduced then
    let base := st.url ++ "/resource/workspaces/" ++ st.ws ++ "/styles/spriteSheet"
    let st := issue st .PUT (base ++ ".png") (some .other)
    let st := issue st .PUT (base ++ "@2x.png") (some .other)
    let st := issue st .PUT (base ++ ".json") (some .other)
    issue st .PUT (base ++ "@2x.json") (some .other)
  else st

/-- One member entry of a layer-group `publishables` list: the `@type`
tag (`"layer"` or `"layerGroup"`) and the workspace-qualified name. -/
structure GroupEntry where
  typ : String
  name : String
deriving DecidableEq

/-- `_publishGroup(group, qgis_layers)` (source lines 419-454): publish
the group style, then walk `group["layers"]`: a plain string child
contributes a `layer` entry; a dict child contributes a `layerGroup`
entry and is then passed to the recursive call `self._publishGroup(layer)`
— which omits the required `qgis_layers` argument, so Python raises
`TypeError` at that call, before the callee body runs and before the
parent group resource is created. When no dict child occurs, the group
definition (requiring `title` and `abstract` keys) is POSTed after a
best-effort DELETE, and the tile-cache layer is patched to carry the
vector-tile format if missing. -/
def _publishGroup (env : Env) (st : GSState) (g : GroupDict) : GSState × Option PyErr :=
  let st := _publishGroupMapBox env st g
  match g.children with
  | none => (st, some (.keyError "layers"))
  | some children =>
    if children.any (fun c => match c with | .grp _ => true | .lyr _ => false) then
      (st, some (.typeError
        "_publishGroup() missing 1 required positional argument: qgis_layers"))
    else
      let entries := children.map (fun c => match c with
        | .lyr s => GroupEntry.mk "layer" (st.ws ++ ":" ++ s)
        | .grp d => GroupEntry.mk "layerGroup" (st.ws ++ ":" ++ d.name))
      match g.title, g.abstract with
      | some _, some _ =>
        let u := st.url ++ "/workspaces/" ++ st.ws ++ "/layergroups"
        let st := issue st .DELETE (u ++ "/" ++ g.name) none
        let st := issue st .POST u (some .other)
        let _ := entries
        let gwcUrl := pyReplace st.url "/rest" "" ++ "/gwc/rest/layers/" ++ st.ws ++ ":"
          ++ g.name ++ ".xml"
        let st := issue st .GET gwcUrl none
        let st := if ¬ env.gwcHasVTFormat then issue st .PUT gwcUrl (some .other) else st
        (st, none)
      | _, _ => (st, some (.keyError "title or abstractTxt"))

/-- `createGroups(groups, qgis_layers)` (source lines 361-363): publish
each group in turn; a raised exception propagates. -/
def createGroups (env : Env) (st : GSState) : List GroupDict → GSState × Option PyErr
  | [] => (st, none)
  | g :: rest =>
    let q := _publishGroup env st g
    match q.2 with
    | some e => (q.1, some e)
    | none => createGroups env q.1 rest

/-! ## Version check and URL normalization -/

/-- The error added when the version endpoint cannot be fetched. -/
def connectErrorMsg : String :=
  "Could not connect to Geoserver.  Please check the server settings (including password)."

/-- The error added for an unsupported version (message text abridged to
its stable prefix plus the reported version). -/
def minVersionMsg (ver : String) : String :=
  "Geoserver 2.14.0 or later is required.  Selected Geoserver is version " ++ ver

/-- `errors.add(e)` on the Python set of accumulated errors. -/
def errAdd (errors : List String) (e : String) : List String :=
  if errors.contains e then errors else errors ++ [e]

/-- `checkMinGeoserverVersion(errors)` (source lines 655-673), with the
fetched `about/version.json` resource passed explicitly: `none` when the
request or JSON extraction fails, otherwise the resource list as
`(@name, Version-if-present)` pairs. A missing GeoServer entry, a missing
`Version` key, a version that does not split into exactly three
dot-separated parts, or a non-integer minor component are all treated as
acceptable; otherwise the blocking error is added exactly when
`int(ver_minor) <= 13`, the major and patch parts never being compared. -/
def checkMinGeoserverVersion (fetch : Option (List (String × Option String)))
    (errors : List String) : List String :=
  match fetch with
  | none => errAdd errors connectErrorMsg
  | some result =>
    match result.find? (fun x => x.1 == "GeoServer") with
    | none => errors
    | some entry =>
      match entry.2 with
      | none => errors
      | some ver =>
        match pySplitChar ver '.' with
        | [_verMajor, verMinor, _verPatch] =>
          match pyInt verMinor with
          | some m => if m ≤ 13 then errAdd errors (minVersionMsg ver) else errors
          | none => errors
        | _ => errors

/-- The URL normalization of `GeoserverServer.__init__` (source lines
44-50): a non-empty url already ending in `rest` is kept with surrounding
slashes stripped; otherwise `/rest` is appended after stripping. -/
def initUrl (url : String) : String :=
  if url ≠ "" then
    if pyEndsWith url "rest" then pyStripSlashes url
    else pyStripSlashes url ++ "/rest"
  else url

/-- `baseUrl()` (source lines 217-218): drop the last `/`-separated
component. -/
def baseUrl (st : GSState) : String :=
  String.intercalate "/" ((pySplitChar st.url '/').dropLast)

/-! ## Failure classification for an existence probe -/

/-- Whether a probe outcome counts as a failure of the existence check:
a connectivity error, a non-2xx response, or a malformed body (listing
key missing, or a listing whose member objects cannot all be projected to
a name). -/
def probeFails : ReqOutcome → String → Bool
  | .connectivityError, _ => true
  | .httpError _, _ => true
  | .ok body, category =>
    match body.getItem (category ++ "s") with
    | none => true
    | some root => root.pyIn category && (root.itemNames category).isNone

/-! ## Concrete instances used by counterexamples and witnesses -/

/-- A benign oracle environment for concrete evaluations. -/
def envDefault : Env :=
  { exportLayerPath := fun s => s ++ ".gpkg"
    exportShpPath := fun s => s ++ ".shp"
    gpkgTableName := fun _ => "tbl"
    postgisDbFound := true
    importId := 0
    taskId := 0
    spriteSheetProduced := false
    gwcHasVTFormat := false }

/-- A session state: workspace `ws` exists remotely and holds layer `L`;
the layer cache has just been cleared. -/
def stC1 : GSState :=
  { url := "http://gs/rest", ws := "ws", storage := 0, useOriginalDataSource := false
    postgisdb := none
    remote := { workspaces := ["ws"], layers := ["L"], styles := [], datastores := [] }
    layersCache := .cleared
    uploadedDatasets := [], exportedLayers := [], publishedLayers := []
    postgisDatastoreExists := false, requests := [], errors := [] }

/-- A raster layer used to drive a completing `publishLayer` run. -/
def rasterC1 : Layer :=
  { type := .RasterLayer, featureCount := 0, name := "R", source := "src-r"
    providerName := "gdal", xmin := 0, xmax := 1, ymin := 0, ymax := 1
    authid := "EPSG:4326" }

/-- A session state whose workspace exists and has no layers or styles. -/
def stC2 : GSState :=
  { url := "http://gs/rest", ws := "ws", storage := 0, useOriginalDataSource := false
    postgisdb := none
    remote := { workspaces := ["ws"], layers := [], styles := [], datastores := [] }
    layersCache := .cleared
    uploadedDatasets := [], exportedLayers := [], publishedLayers := []
    postgisDatastoreExists := false, requests := [], errors := [] }

/-- The group tree of the claim, read as the Python dicts it denotes:
`G` has the dict child with only a name key `L1` and the dict child `G2`
whose layers list holds the plain string `L2`. -/
def gTreeC2 : GroupDict :=
  .mk "G" none none (some [.grp (.mk "L1" none none none),
    .grp (.mk "G2" none none (some [.lyr "L2"]))])

/-- A zero-feature vector layer. -/
def layerC4 : Layer :=
  { type := .VectorLayer, featureCount := 0, name := "V", source := "src-v"
    providerName := "ogr", xmin := 0, xmax := 1, ymin := 0, ymax := 1
    authid := "EPSG:4326" }

/-- A state for the witness of the zero-feature claim. -/
def stC4 : GSState := stC2

/-- A state for the witness of the idempotent-style claim. -/
def stC5 : GSState := stC2

/-- The stale state of the cache-reset counterexample: a session whose
layer cache still holds the name `X`. -/
def stC6 : GSState :=
  { stC1 with layersCache := .filled [JVal.jstr "X"] }

/-- A layer with extent coordinates of more than five decimal digits, for
the bounding-box witness. -/
def layerC9 : Layer :=
  { type := .VectorLayer, featureCount := 3, name := "V9", source := "src-9"
    providerName := "ogr", xmin := 1234567/1000000, xmax := 2, ymin := -1/3, ymax := 5
    authid := "EPSG:4326" }

/-- A state whose workspace exists and holds layers `a` and `b`, for the
deletion-check witness. -/
def stC10 : GSState :=
  { stC1 with remote := Remote.mk ["ws"] ["a", "b"] [] [] }

/-! ## Helper lemmas about `_exists` on well-formed listings -/

theorem itemNamesGo_names (ns : List String) :
    JVal.itemNamesGo (ns.map (fun n => JVal.jobj [("name", JVal.jstr n)])) =
      some (ns.map JVal.jstr) := by
  induction ns with
  | nil => rfl
  | cons n ns ih => simp [JVal.itemNamesGo, ih, JVal.getItem]

theorem itemNames_categoryJson (category : String) (names : List String) :
    JVal.itemNames (.jobj [(category, .jarr (names.map (fun n => .jobj [("name", .jstr n)])))])
      category = some (names.map JVal.jstr) := by
  unfold JVal.itemNames
  rw [show JVal.getItem (.jobj [(category, .jarr (names.map (fun n =>
    .jobj [("name", .jstr n)])))]) category = some (.jarr (names.map (fun n =>
      .jobj [("name", .jstr n)]))) from by simp [JVal.getItem]]
  exact itemNamesGo_names names

theorem beq_string_comm (a b : String) : (a == b) = (b == a) := by
  by_cases h : a = b
  · simp [h]
  · simp [h, Ne.symm h]

theorem any_beq_jstr (names : List String) (name : String) :
    (names.map JVal.jstr).any (fun x => x == JVal.jstr name) = names.contains name := by
  induction names with
  | nil => rfl
  | cons n ns ih =>
      simp only [List.map_cons, List.any_cons, List.contains_cons]
      rw [ih, show (JVal.jstr n == JVal.jstr name) = (n == name) from rfl,
        beq_string_comm n name]

theorem existsImpl_categoryJson (cache : LayersCache) (category name : String)
    (names : List String) (hcat : category ≠ "layer") (hne : category ≠ "") :
    existsImpl cache category name (.ok (categoryJson category names)) =
      (names.contains name, cache, true) := by
  have hb : (category != "layer") = true := by simp [bne_iff_ne, hcat]
  have hb2 : (category == "layer") = false := by
    simp only [beq_eq_false_iff_ne, ne_eq]; exact hcat
  cases names with
  | nil =>
      have hp : JVal.pyIn category (.jstr "") = false := by
        unfold JVal.pyIn pyContains
        cases hd : category.data with
        | nil => exact absurd (String.ext hd) hne
        | cons c cs => simp [hd, List.isPrefixOf, List.range_succ]
      simp [existsImpl, hb, categoryJson, JVal.getItem, hp]
  | cons n ns =>
      have hitems := itemNames_categoryJson category (n :: ns)
      simp only [List.map] at hitems
      simp [existsImpl, hb, hb2, categoryJson, JVal.getItem, JVal.pyIn, hitems,
        any_beq_jstr]
      rw [show (JVal.jstr n == JVal.jstr name) = decide (n = name) from rfl]
      simp [eq_comm]

theorem workspaceExists_eq (st : GSState) :
    workspaceExists st = ({ st with requests := st.requests
      ++ [⟨.GET, st.url ++ "/workspaces.json", none⟩] }, st.remote.workspaces.contains st.ws) := by
  have h := existsImpl_categoryJson st.layersCache "workspace" st.ws st.remote.workspaces
    (by decide) (by decide)
  simp [workspaceExists, h]

theorem styleExists_eq (st : GSState) (name : String) :
    styleExists st name = ({ st with requests := st.requests
      ++ [⟨.GET, st.url ++ "/workspaces/" ++ st.ws ++ "/styles.json", none⟩] },
      st.remote.styles.contains name) := by
  have h := existsImpl_categoryJson st.layersCache "style" name st.remote.styles
    (by decide) (by decide)
  simp [styleExists, h]

theorem datastoreExists_eq (st : GSState) (name : String) :
    datastoreExists st name = ({ st with requests := st.requests
      ++ [⟨.GET, st.url ++ "/workspaces/" ++ st.ws ++ "/datastores.json", none⟩] },
      st.remote.datastores.contains name) := by
  have h := existsImpl_categoryJson st.layersCache "dataStore" name st.remote.datastores
    (by decide) (by decide)
  simp [datastoreExists, h]

theorem filterMap_jstr (names : List String) :
    List.filterMap ((fun x => match x with | JVal.jstr s => some s | _ => none) ∘ JVal.jstr)
      names = names := by
  induction names with
  | nil => rfl
  | cons n ns ih => simpa using ih

theorem layersOp_eq (st : GSState) :
    layersOp st = ({ st with requests := st.requests ++ [⟨.GET, st.url ++ "/workspaces/"
      ++ st.ws ++ "/layers.json", none⟩] }, st.remote.layers) := by
  unfold layersOp
  cases hl : st.remote.layers with
  | nil =>
      have hp : JVal.pyIn "layer" (.jstr "") = false := by decide
      simp [categoryJson, JVal.getItem, hp, issue, hl]
  | cons n ns =>
      have hitems := itemNames_categoryJson "layer" (n :: ns)
      simp only [List.map] at hitems
      simp [categoryJson, JVal.getItem, JVal.pyIn, hitems, issue, hl, filterMap_jstr]

theorem contains_false_of_not_mem {l : List String} {a : String} (h : a ∉ l) :
    l.contains a = false := by
  cases hc : l.contains a with
  | false => rfl
  | true => exact absurd (List.elem_iff.mp hc) h

theorem contains_true_of_mem {l : List String} {a : String} (h : a ∈ l) :
    l.contains a = true := List.elem_iff.mpr h

theorem ensure_eq (st : GSState) :
    _ensureWorkspaceExists st =
      if st.remote.workspaces.contains st.ws then
        { st with requests := st.requests ++ [⟨.GET, st.url ++ "/workspaces.json", none⟩] }
      else
        { st with
          requests := st.requests ++ [⟨.GET, st.url ++ "/workspaces.json", none⟩,
            ⟨.POST, st.url ++ "/workspaces", none⟩],
          remote := { st.remote with workspaces := st.remote.workspaces ++ [st.ws] } } := by
  unfold _ensureWorkspaceExists
  rw [workspaceExists_eq]
  cases hc : st.remote.workspaces.contains st.ws with
  | true => simp [issue]
  | false => simp [issue]

theorem _publishStyle_zip (st : GSState) (name fn : String)
    (hzip : pyLower (pySplitextExt fn) = ".zip") :
    _publishStyle st name fn =
      (let e := _ensureWorkspaceExists st
       { e with
         requests := e.requests
           ++ [⟨.GET, e.url ++ "/workspaces/" ++ e.ws ++ "/styles.json", none⟩,
             if e.remote.styles.contains name then
               ⟨.PUT, e.url ++ "/workspaces/" ++ e.ws ++ "/styles/" ++ name, some .other⟩
             else
               ⟨.POST, e.url ++ "/workspaces/" ++ e.ws ++ "/styles?name=" ++ name, some .other⟩],
         remote := { e.remote with styles := addIfAbsent e.remote.styles name } }) := by
  unfold _publishStyle
  simp only [styleExists_eq, hzip]
  cases hc : (_ensureWorkspaceExists st).remote.styles.contains name with
  | true => simp [hc, issue]
  | false => simp [hc, issue]

/-! ## Cache-clearing lemmas -/

theorem ensure_cache (st : GSState) :
    (_ensureWorkspaceExists st).layersCache = st.layersCache := by
  rw [ensure_eq]
  split <;> rfl

theorem propagate_clears (q : GSState × Option PyErr) :
    (propagate q (fun s => (_clearCache s, none))).2 = none →
    (propagate q (fun s => (_clearCache s, none))).1.layersCache = .cleared := by
  cases hq : q.2 <;> simp [propagate, hq, _clearCache]

theorem deleteWorkspace_clears (st : GSState) (hws : st.ws ∈ st.remote.workspaces) :
    (deleteWorkspace st).layersCache = .cleared := by
  unfold deleteWorkspace
  simp only [workspaceExists_eq, contains_true_of_mem hws, if_true]
  rfl

theorem publishLayer_clears (env : Env) (st : GSState) (layer : Layer)
    (hnz : layer.type = .VectorLayer → layer.featureCount ≠ 0)
    (hok : (publishLayer env st layer).2 = none) :
    (publishLayer env st layer).1.layersCache = .cleared := by
  revert hok
  unfold publishLayer
  cases hty : layer.type with
  | VectorLayer =>
      have hfc : (layer.featureCount == 0) = false := by
        simp [hnz hty]
      simp only [hfc, Bool.false_eq_true, if_false]
      split_ifs <;>
        first
          | exact propagate_clears _
          | (intro h; first | rfl | simp at h)
  | RasterLayer =>
      intro _; rfl

/-! ## Rounding lemmas -/

theorem abs_floor_sub (q : ℚ) : |(⌊q⌋ : ℚ) - q| = Int.fract q := by
  rw [abs_sub_comm, abs_of_nonneg (by linarith [Int.floor_le q])]
  rfl

theorem abs_floor_add_one_sub (q : ℚ) : |((⌊q⌋ : ℚ) + 1) - q| = 1 - Int.fract q := by
  rw [abs_of_nonneg (by linarith [Int.lt_floor_add_one q])]
  have h : Int.fract q = q - ⌊q⌋ := rfl
  linarith

theorem roundHalfEven_close (q : ℚ) :
    |(roundHalfEven q : ℚ) - q| ≤ min (Int.fract q) (1 - Int.fract q) := by
  have hr0 : 0 ≤ Int.fract q := Int.fract_nonneg q
  have hr1 : Int.fract q < 1 := Int.fract_lt_one q
  unfold roundHalfEven
  split_ifs with h1 h2 h3
  · rw [abs_floor_sub]
    exact le_min (le_refl _) (by linarith)
  · push_cast
    rw [abs_floor_add_one_sub]
    exact le_min (by linarith) (le_refl _)
  · have heq : Int.fract q = 1/2 := by linarith
    rw [abs_floor_sub, heq]
    norm_num
  · have heq : Int.fract q = 1/2 := by linarith
    push_cast
    rw [abs_floor_add_one_sub, heq]
    norm_num

theorem int_dist_ge (q : ℚ) (z : ℤ) :
    min (Int.fract q) (1 - Int.fract q) ≤ |(z : ℚ) - q| := by
  have hfr : Int.fract q = q - ⌊q⌋ := rfl
  rcases le_or_lt z ⌊q⌋ with h | h
  · have hzq : (z : ℚ) ≤ ⌊q⌋ := by exact_mod_cast h
    have hle : (⌊q⌋ : ℚ) ≤ q := Int.floor_le q
    rw [abs_sub_comm, abs_of_nonneg (by linarith)]
    calc min (Int.fract q) (1 - Int.fract q) ≤ Int.fract q := min_le_left _ _
    _ ≤ q - z := by rw [hfr]; linarith
  · have hz1 : (⌊q⌋ : ℤ) + 1 ≤ z := h
    have hzq : (⌊q⌋ : ℚ) + 1 ≤ z := by exact_mod_cast hz1
    have hlt : q < (⌊q⌋ : ℚ) + 1 := Int.lt_floor_add_one q
    rw [abs_of_nonneg (by linarith)]
    calc min (Int.fract q) (1 - Int.fract q) ≤ 1 - Int.fract q := min_le_right _ _
    _ ≤ (z : ℚ) - q := by rw [hfr]; linarith

theorem roundHalfEven_nearest (q : ℚ) (z : ℤ) :
    |(roundHalfEven q : ℚ) - q| ≤ |(z : ℚ) - q| :=
  le_trans (roundHalfEven_close q) (int_dist_ge q z)

theorem pyRound5_nearest (q : ℚ) (z : ℤ) :
    |pyRound5 q - q| ≤ |(z : ℚ) / 100000 - q| := by
  have h := roundHalfEven_nearest (q * 100000) z
  unfold pyRound5
  have h1 : (roundHalfEven (q * 100000) : ℚ) / 100000 - q =
      ((roundHalfEven (q * 100000) : ℚ) - q * 100000) / 100000 := by ring
  have h2 : (z : ℚ) / 100000 - q = ((z : ℚ) - q * 100000) / 100000 := by ring
  rw [h1, h2, abs_div, abs_div]
  rw [show |(100000 : ℚ)| = 100000 from by norm_num]
  rw [div_le_div_iff_of_pos_right (by norm_num)]
  exact h

theorem pyRound5_half_ulp (q : ℚ) : |pyRound5 q - q| ≤ 1 / 200000 := by
  have h := roundHalfEven_close (q * 100000)
  have hb : min (Int.fract (q * 100000)) (1 - Int.fract (q * 100000)) ≤ 1/2 := by
    rcases le_or_lt (Int.fract (q * 100000)) (1/2) with h2 | h2
    · exact le_trans (min_le_left _ _) h2
    · exact le_trans (min_le_right _ _) (by linarith)
  unfold pyRound5
  have h1 : (roundHalfEven (q * 100000) : ℚ) / 100000 - q =
      ((roundHalfEven (q * 100000) : ℚ) - q * 100000) / 100000 := by ring
  rw [h1, abs_div, show |(100000 : ℚ)| = 100000 from by norm_num]
  rw [div_le_div_iff₀ (by norm_num) (by norm_num)]
  calc |(roundHalfEven (q * 100000) : ℚ) - q * 100000| * 200000 ≤ (1/2) * 200000 := by
        have hle := le_trans h hb
        nlinarith
  _ = 1 * 100000 := by norm_num

/-! ## The feature-type request of the FileBased publish path -/

theorem ftreq_mem (env : Env) (st : GSState) (layer : Layer) (filename : String) :
    ∃ r ∈ (_publishVectorLayerFromFile env st layer filename).requests,
      r.body = some (.ft (featureTypeUpdate layer)) := by
  by_cases hup : (st.uploadedDatasets.find? (fun p => p.1 == filename)).isSome
  · simp [_publishVectorLayerFromFile, _setLayerStyle, _deleteDatastore, issue, hup]
    exact ⟨_, Or.inr (Or.inr (Or.inl rfl)), rfl⟩
  · simp [_publishVectorLayerFromFile, _setLayerStyle, _deleteDatastore, issue, hup]
    exact ⟨_, Or.inr (Or.inr (Or.inr (Or.inr (Or.inl rfl)))), rfl⟩

/-! ## Suffix lemmas for the URL normalization -/

theorem singleton_prefix_iff (c : Char) (l : List Char) :
    ([c] <+: l) ↔ l.head? = some c := by
  cases l with
  | nil => simp
  | cons a as => simp [List.cons_prefix_cons, eq_comm]

theorem pyEndsWith_append_self (x suffix : String) :
    pyEndsWith (x ++ suffix) suffix = true := by
  unfold pyEndsWith
  rw [List.isSuffixOf_iff_suffix, String.data_append]
  exact List.suffix_append _ _

theorem pyEndsWith_append_rest_slash (x : String) :
    pyEndsWith (x ++ "/rest") "/" = false := by
  unfold pyEndsWith
  cases h : List.isSuffixOf "/".data (x ++ "/rest").data with
  | false => rfl
  | true =>
    exfalso
    have hs : "/".data <:+ (x ++ "/rest").data := List.isSuffixOf_iff_suffix.mp h
    rw [String.data_append] at hs
    have hp : ("/".data).reverse <+: (x.data ++ "/rest".data).reverse :=
      List.reverse_prefix.mpr hs
    rw [List.reverse_append] at hp
    rw [show ("/".data).reverse = ['/'] from rfl] at hp
    rw [show ("/rest".data).reverse = ['t', 's', 'e', 'r', '/'] from rfl] at hp
    rw [singleton_prefix_iff] at hp
    simp at hp

/-! ## Claims -/

/-- C1 (counterexample). The claim says the per-session layer-existence
cache is cleared after `deleteLayer`; it is not. On a session whose
workspace holds layer `L` and whose cache was just cleared, `deleteLayer
"L"` leaves the cache filled with `L` (the probe of its own `layerExists`
guard), the remote layer list empty, and a subsequent `layerExists "L"`
answers `true` from the stale cache without issuing any request. -/
theorem c1_deleteLayer_stale_cache_counterexample :
    (deleteLayer stC1 "L" true).layersCache = LayersCache.filled [JVal.jstr "L"] ∧
    (deleteLayer stC1 "L" true).remote.layers = [] ∧
    (layerExists (deleteLayer stC1 "L" true) "L").2 = true ∧
    (layerExists (deleteLayer stC1 "L" true) "L").1.requests =
      (deleteLayer stC1 "L" true).requests :=
  ⟨rfl, rfl, rfl, rfl⟩

/-- C1 (amended). After a workspace delete that found the workspace
remotely, and after any `publishLayer` call that completes without an
exception on a layer that is not a zero-feature vector layer, the
per-session layer-existence cache is cleared; `deleteLayer` alone does
not clear it. -/
theorem c1_cache_invalidation_amended (env : Env) (st st2 : GSState) (layer : Layer)
    (hws : st.ws ∈ st.remote.workspaces)
    (hnz : layer.type = .VectorLayer → layer.featureCount ≠ 0)
    (hok : (publishLayer env st2 layer).2 = none) :
    (deleteWorkspace st).layersCache = .cleared ∧
    (publishLayer env st2 layer).1.layersCache = .cleared :=
  ⟨deleteWorkspace_clears st hws, publishLayer_clears env st2 layer hnz hok⟩

/-- C1 (witness). The amended statement at a concrete session state and a
raster layer whose publish completes. -/
theorem c1_cache_invalidation_amended_witness :
    stC1.ws ∈ stC1.remote.workspaces ∧
    ((deleteWorkspace stC1).layersCache = .cleared ∧
     (publishLayer envDefault stC1 rasterC1).1.layersCache = .cleared) :=
  ⟨by decide, c1_cache_invalidation_amended envDefault stC1 stC1 rasterC1 (by decide)
    (by decide) (by rfl)⟩

/-- C2. On the claim's group tree, `createGroups` raises `TypeError`: the
first child `{name: "L1"}` is a dict, so the loop tags it `layerGroup`
and recursively calls `self._publishGroup(layer)` without the required
`qgis_layers` argument. No layer-group resource is created at all — no
issued request touches the `layergroups` endpoint — so neither the
claimed `publishables` list for `G` nor the prior resource for `G2`
materializes. -/
theorem c2_nested_group_typeerror :
    (createGroups envDefault stC2 [gTreeC2]).2 =
      some (.typeError "_publishGroup() missing 1 required positional argument: qgis_layers") ∧
    ((createGroups envDefault stC2 [gTreeC2]).1.requests.all
      (fun r => !(pyContains r.url "layergroups"))) = true :=
  ⟨rfl, by decide⟩

/-- C3. The version gate compares only the minor component
(`int(ver_minor) <= 13`): version `3.0.0` — at or above the required
2.14.0 — is nevertheless blocked with the 2.14.0-or-later error, while
2.14.0 passes, 2.13.4 is blocked, an unparsable dev version is accepted,
a missing GeoServer entry is accepted, and a failed fetch adds the
connection error instead. -/
theorem c3_version_check_minor_only :
    checkMinGeoserverVersion (some [("GeoServer", some "3.0.0")]) [] =
      [minVersionMsg "3.0.0"] ∧
    checkMinGeoserverVersion (some [("GeoServer", some "2.14.0")]) [] = [] ∧
    checkMinGeoserverVersion (some [("GeoServer", some "2.13.4")]) [] =
      [minVersionMsg "2.13.4"] ∧
    checkMinGeoserverVersion (some [("GeoServer", some "2.14-SNAPSHOT")]) [] = [] ∧
    checkMinGeoserverVersion (some []) [] = [] ∧
    checkMinGeoserverVersion none [] = [connectErrorMsg] := by
  refine ⟨by decide, by decide, by decide, by decide, by decide, by decide⟩

/-- C4. Publishing a vector layer with zero features issues no HTTP
request, mutates neither the remote state nor any per-session cache
(exported-layers map, uploaded-datasets map, published-layer set,
layer-existence cache), raises nothing, and only appends the
zero-features error to the log. -/
theorem c4_zero_features_no_effect (env : Env) (st : GSState) (layer : Layer)
    (hv : layer.type = .VectorLayer) (hz : layer.featureCount = 0) :
    publishLayer env st layer = ({ st with errors := st.errors ++ [zeroFeaturesMsg] }, none) := by
  unfold publishLayer
  rw [hv, hz]
  simp [logError]

/-- C4 (witness). The zero-feature skip at a concrete layer and state. -/
theorem c4_zero_features_no_effect_witness :
    layerC4.type = .VectorLayer ∧ layerC4.featureCount = 0 ∧
    publishLayer envDefault stC4 layerC4 =
      ({ stC4 with errors := stC4.errors ++ [zeroFeaturesMsg] }, none) :=
  ⟨rfl, rfl, c4_zero_features_no_effect envDefault stC4 layerC4 rfl rfl⟩

/-- C5. Publishing the same single-layer (zip) style name twice in a row:
the first `_publishStyle` finds it absent and issues the POST on the
workspace styles collection, the second finds it present and issues the
PUT on the named style endpoint — the second call issues no POST at all —
and exactly one remote style of that name exists afterwards. -/
theorem c5_idempotent_style_publish (st : GSState) (name fn : String)
    (habs : name ∉ st.remote.styles) (hzip : pyLower (pySplitextExt fn) = ".zip") :
    (⟨.POST, st.url ++ "/workspaces/" ++ st.ws ++ "/styles?name=" ++ name, some .other⟩ : Req)
      ∈ (_publishStyle st name fn).requests ∧
    (⟨.PUT, st.url ++ "/workspaces/" ++ st.ws ++ "/styles/" ++ name, some .other⟩ : Req)
      ∈ (_publishStyle (_publishStyle st name fn) name fn).requests ∧
    (∀ r ∈ (_publishStyle (_publishStyle st name fn) name fn).requests.drop
        (_publishStyle st name fn).requests.length, r.method ≠ .POST) ∧
    (_publishStyle (_publishStyle st name fn) name fn).remote.styles.count name = 1 := by
  have hcount0 : st.remote.styles.count name = 0 := by
    rw [List.count_eq_zero]; exact habs
  by_cases hw : st.ws ∈ st.remote.workspaces
  · have h1 : _publishStyle st name fn =
        { st with
          requests := st.requests ++ [⟨.GET, st.url ++ "/workspaces.json", none⟩,
            ⟨.GET, st.url ++ "/workspaces/" ++ st.ws ++ "/styles.json", none⟩,
            ⟨.POST, st.url ++ "/workspaces/" ++ st.ws ++ "/styles?name=" ++ name, some .other⟩],
          remote := Remote.mk st.remote.workspaces st.remote.layers
            (st.remote.styles ++ [name]) st.remote.datastores } := by
      rw [_publishStyle_zip st name fn hzip, ensure_eq]
      simp [addIfAbsent, habs, hw]
    have h2 : _publishStyle (_publishStyle st name fn) name fn =
        { st with
          requests := (st.requests ++ [⟨.GET, st.url ++ "/workspaces.json", none⟩,
            ⟨.GET, st.url ++ "/workspaces/" ++ st.ws ++ "/styles.json", none⟩,
            ⟨.POST, st.url ++ "/workspaces/" ++ st.ws ++ "/styles?name=" ++ name, some .other⟩])
            ++ [⟨.GET, st.url ++ "/workspaces.json", none⟩,
            ⟨.GET, st.url ++ "/workspaces/" ++ st.ws ++ "/styles.json", none⟩,
            ⟨.PUT, st.url ++ "/workspaces/" ++ st.ws ++ "/styles/" ++ name, some .other⟩],
          remote := Remote.mk st.remote.workspaces st.remote.layers
            (st.remote.styles ++ [name]) st.remote.datastores } := by
      rw [_publishStyle_zip _ name fn hzip, h1, ensure_eq]
      simp [addIfAbsent, hw]
    have hdrop : (_publishStyle (_publishStyle st name fn) name fn).requests.drop
        (_publishStyle st name fn).requests.length =
        [⟨.GET, st.url ++ "/workspaces.json", none⟩,
         ⟨.GET, st.url ++ "/workspaces/" ++ st.ws ++ "/styles.json", none⟩,
         ⟨.PUT, st.url ++ "/workspaces/" ++ st.ws ++ "/styles/" ++ name, some .other⟩] := by
      rw [h2, h1]
      exact List.drop_left _ _
    refine ⟨?_, ?_, ?_, ?_⟩
    · rw [h1]; simp
    · rw [h2]; simp
    · rw [hdrop]
      intro r hr
      simp only [List.mem_cons, List.not_mem_nil, or_false] at hr
      rcases hr with rfl | rfl | rfl <;> exact fun h => nomatch h
    · rw [h2]
      simp [List.count_append, hcount0]
  · have h1 : _publishStyle st name fn =
        { st with
          requests := st.requests ++ [⟨.GET, st.url ++ "/workspaces.json", none⟩,
            ⟨.POST, st.url ++ "/workspaces", none⟩,
            ⟨.GET, st.url ++ "/workspaces/" ++ st.ws ++ "/styles.json", none⟩,
            ⟨.POST, st.url ++ "/workspaces/" ++ st.ws ++ "/styles?name=" ++ name, some .other⟩],
          remote := Remote.mk (st.remote.workspaces ++ [st.ws]) st.remote.layers
            (st.remote.styles ++ [name]) st.remote.datastores } := by
      rw [_publishStyle_zip st name fn hzip, ensure_eq]
      simp [addIfAbsent, habs, hw]
    have h2 : _publishStyle (_publishStyle st name fn) name fn =
        { st with
          requests := (st.requests ++ [⟨.GET, st.url ++ "/workspaces.json", none⟩,
            ⟨.POST, st.url ++ "/workspaces", none⟩,
            ⟨.GET, st.url ++ "/workspaces/" ++ st.ws ++ "/styles.json", none⟩,
            ⟨.POST, st.url ++ "/workspaces/" ++ st.ws ++ "/styles?name=" ++ name, some .other⟩])
            ++ [⟨.GET, st.url ++ "/workspaces.json", none⟩,
            ⟨.GET, st.url ++ "/workspaces/" ++ st.ws ++ "/styles.json", none⟩,
            ⟨.PUT, st.url ++ "/workspaces/" ++ st.ws ++ "/styles/" ++ name, some .other⟩],
          remote := Remote.mk (st.remote.workspaces ++ [st.ws]) st.remote.layers
            (st.remote.styles ++ [name]) st.remote.datastores } := by
      rw [_publishStyle_zip _ name fn hzip, h1, ensure_eq]
      simp [addIfAbsent, hw]
    have hdrop : (_publishStyle (_publishStyle st name fn) name fn).requests.drop
        (_publishStyle st name fn).requests.length =
        [⟨.GET, st.url ++ "/workspaces.json", none⟩,
         ⟨.GET, st.url ++ "/workspaces/" ++ st.ws ++ "/styles.json", none⟩,
         ⟨.PUT, st.url ++ "/workspaces/" ++ st.ws ++ "/styles/" ++ name, some .other⟩] := by
      rw [h2, h1]
      exact List.drop_left _ _
    refine ⟨?_, ?_, ?_, ?_⟩
    · rw [h1]; simp
    · rw [h2]; simp
    · rw [hdrop]
      intro r hr
      simp only [List.mem_cons, List.not_mem_nil, or_false] at hr
      rcases hr with rfl | rfl | rfl <;> exact fun h => nomatch h
    · rw [h2]
      simp [List.count_append, hcount0]

/-- C5 (witness). The double publish at a concrete state and style. -/
theorem c5_idempotent_style_publish_witness :
    "road" ∉ stC5.remote.styles ∧
    ((⟨.POST, stC5.url ++ "/workspaces/" ++ stC5.ws ++ "/styles?name=" ++ "road",
        some .other⟩ : Req)
      ∈ (_publishStyle stC5 "road" "road.zip").requests ∧
    (⟨.PUT, stC5.url ++ "/workspaces/" ++ stC5.ws ++ "/styles/" ++ "road", some .other⟩ : Req)
      ∈ (_publishStyle (_publishStyle stC5 "road" "road.zip") "road" "road.zip").requests ∧
    (∀ r ∈ (_publishStyle (_publishStyle stC5 "road" "road.zip") "road"
        "road.zip").requests.drop (_publishStyle stC5 "road" "road.zip").requests.length,
        r.method ≠ .POST) ∧
    (_publishStyle (_publishStyle stC5 "road" "road.zip") "road"
      "road.zip").remote.styles.count "road" = 1) :=
  ⟨by decide, c5_idempotent_style_publish stC5 "road" "road.zip" (by decide) (by decide)⟩

/-- C6 (counterexample). The claim says `prepareForPublishing` resets
every per-session cache for both values of `onlySymbology`; with
`onlySymbology = true` the layer-existence cache keeps its stale
contents while the other caches are reset. -/
theorem c6_layers_cache_not_reset_counterexample :
    (prepareForPublishing stC6 true).layersCache = LayersCache.filled [JVal.jstr "X"] ∧
    (prepareForPublishing stC6 true).exportedLayers = [] :=
  ⟨rfl, rfl⟩

/-- C6 (amended). `prepareForPublishing` resets the uploaded-datasets
map, the exported-layers map, the published-layer set and the PostGIS
datastore flag for both values of `onlySymbology`; the layer-existence
cache is cleared only through the workspace-deletion path
(`onlySymbology = false` with the workspace present remotely), and with
`onlySymbology = true` it retains its previous contents. -/
theorem c6_prepare_resets_amended (st : GSState) (b : Bool) :
    (prepareForPublishing st b).uploadedDatasets = [] ∧
    (prepareForPublishing st b).exportedLayers = [] ∧
    (prepareForPublishing st b).publishedLayers = [] ∧
    (prepareForPublishing st b).postgisDatastoreExists = false ∧
    (b = false → st.ws ∈ st.remote.workspaces →
      (prepareForPublishing st b).layersCache = .cleared) ∧
    (b = true → (prepareForPublishing st b).layersCache = st.layersCache) := by
  cases b with
  | false =>
      refine ⟨rfl, rfl, rfl, rfl, ?_, ?_⟩
      · intro _ hws
        show (_ensureWorkspaceExists (deleteWorkspace st)).layersCache = .cleared
        rw [ensure_cache]
        exact deleteWorkspace_clears st hws
      · intro h; cases h
  | true =>
      refine ⟨rfl, rfl, rfl, rfl, ?_, ?_⟩
      · intro h; cases h
      · intro _
        show (_ensureWorkspaceExists st).layersCache = st.layersCache
        exact ensure_cache st

/-- C6 (witness). The amended statement applied at the stale concrete
state with `onlySymbology = true`. -/
theorem c6_prepare_resets_amended_witness :
    (prepareForPublishing stC6 true).layersCache = stC6.layersCache :=
  (c6_prepare_resets_amended stC6 true).2.2.2.2.2 rfl

/-- C7 (counterexample). The claim says the stored URL ends in `/rest`
exactly once with no trailing slash even when the supplied url carries
the suffix plus a trailing slash; for `http://example.com/rest/` the
constructor instead appends a second suffix, storing
`http://example.com/rest/rest`. -/
theorem c7_trailing_slash_counterexample :
    initUrl "http://example.com/rest/" = "http://example.com/rest/rest" := by decide

/-- C7 (amended). For a non-empty url that does not end in `rest`, the
stored url is the url with surrounding slashes stripped plus `/rest`,
which ends with `/rest` and carries no trailing slash; a url already
ending in `rest` is stored as-is with surrounding slashes stripped (so a
trailing slash after the suffix yields a second `/rest`, and a word
merely ending in `rest` gets no suffix). -/
theorem c7_url_normalization_amended (url : String) (hne : url ≠ "") :
    (pyEndsWith url "rest" = false →
      initUrl url = pyStripSlashes url ++ "/rest" ∧
      pyEndsWith (initUrl url) "/rest" = true ∧
      pyEndsWith (initUrl url) "/" = false) ∧
    (pyEndsWith url "rest" = true → initUrl url = pyStripSlashes url) := by
  constructor
  · intro h
    have hi : initUrl url = pyStripSlashes url ++ "/rest" := by
      unfold initUrl
      simp [hne, h]
    refine ⟨hi, ?_, ?_⟩
    · rw [hi]; exact pyEndsWith_append_self _ _
    · rw [hi]; exact pyEndsWith_append_rest_slash _
  · intro h
    unfold initUrl
    simp [hne, h]

/-- C7 (witness). The amended statement at a url without the suffix. -/
theorem c7_url_normalization_amended_witness :
    pyEndsWith "http://example.com" "rest" = false ∧
    (initUrl "http://example.com" = pyStripSlashes "http://example.com" ++ "/rest" ∧
     pyEndsWith (initUrl "http://example.com") "/rest" = true ∧
     pyEndsWith (initUrl "http://example.com") "/" = false) :=
  ⟨by decide, (c7_url_normalization_amended "http://example.com" (by decide)).1 (by decide)⟩

/-- C8. An existence check through `_exists` never raises — it is a total
function — and whenever the probe is actually issued (the category is
uncached or the layer cache is `None`) and its outcome is a failure
(connectivity error, non-2xx response, or malformed listing body), the
check returns `false` and leaves the cache untouched. -/
theorem c8_exists_swallows_failures (cache : LayersCache) (category name : String)
    (outcome : ReqOutcome)
    (hprobe : category = "layer" → cache = LayersCache.cleared)
    (hfail : probeFails outcome category = true) :
    (existsImpl cache category name outcome).1 = false ∧
    (existsImpl cache category name outcome).2.1 = cache := by
  have hcond : (category != "layer" || cache.isNone) = true := by
    by_cases h : category = "layer"
    · subst h; rw [hprobe rfl]; rfl
    · simp [bne_iff_ne, h]
  cases outcome with
  | connectivityError => simp [existsImpl, hcond]
  | httpError s => simp [existsImpl, hcond]
  | ok body =>
    simp only [probeFails] at hfail
    cases hg : body.getItem (category ++ "s") with
    | none => simp [existsImpl, hcond, hg]
    | some root =>
      rw [hg] at hfail
      simp only [Bool.and_eq_true, Option.isNone_iff_eq_none] at hfail
      obtain ⟨hin, hnone⟩ := hfail
      simp [existsImpl, hcond, hg, hin, hnone]

/-- C8 (witness). A connectivity failure during a layer probe with a
cleared cache returns false and keeps the cache cleared. -/
theorem c8_exists_swallows_failures_witness :
    probeFails ReqOutcome.connectivityError "layer" = true ∧
    ((existsImpl .cleared "layer" "x" .connectivityError).1 = false ∧
     (existsImpl .cleared "layer" "x" .connectivityError).2.1 = .cleared) :=
  ⟨rfl, c8_exists_swallows_failures .cleared "layer" "x" .connectivityError
    (fun _ => rfl) rfl⟩

/-- C9. The FileBased publish path issues a feature-type update whose
body is `featureTypeUpdate layer`; its `nativeBoundingBox` holds, for
each of the four coordinates, the exact multiple of `1/100000` nearest
to the live extent coordinate (ties to even — Python `round(·, 5)`),
within half an ulp regardless of the source precision, and its `srs`
equals the layer CRS authority code. -/
theorem c9_bbox_rounded_5_digits (env : Env) (st : GSState) (layer : Layer)
    (filename : String) :
    (∃ r ∈ (_publishVectorLayerFromFile env st layer filename).requests,
        r.body = some (.ft (featureTypeUpdate layer))) ∧
    (featureTypeUpdate layer).nativeBoundingBox = some (nativeBBoxOf layer) ∧
    (∃ n : ℤ, (nativeBBoxOf layer).minx = (n : ℚ) / 100000) ∧
    (∃ n : ℤ, (nativeBBoxOf layer).maxx = (n : ℚ) / 100000) ∧
    (∃ n : ℤ, (nativeBBoxOf layer).miny = (n : ℚ) / 100000) ∧
    (∃ n : ℤ, (nativeBBoxOf layer).maxy = (n : ℚ) / 100000) ∧
    (∀ z : ℤ, |(nativeBBoxOf layer).minx - layer.xmin| ≤ |(z : ℚ) / 100000 - layer.xmin|) ∧
    (∀ z : ℤ, |(nativeBBoxOf layer).maxx - layer.xmax| ≤ |(z : ℚ) / 100000 - layer.xmax|) ∧
    (∀ z : ℤ, |(nativeBBoxOf layer).miny - layer.ymin| ≤ |(z : ℚ) / 100000 - layer.ymin|) ∧
    (∀ z : ℤ, |(nativeBBoxOf layer).maxy - layer.ymax| ≤ |(z : ℚ) / 100000 - layer.ymax|) ∧
    |(nativeBBoxOf layer).minx - layer.xmin| ≤ 1 / 200000 ∧
    |(nativeBBoxOf layer).maxx - layer.xmax| ≤ 1 / 200000 ∧
    |(nativeBBoxOf layer).miny - layer.ymin| ≤ 1 / 200000 ∧
    |(nativeBBoxOf layer).maxy - layer.ymax| ≤ 1 / 200000 ∧
    (nativeBBoxOf layer).srs = layer.authid :=
  ⟨ftreq_mem env st layer filename, rfl,
   ⟨_, rfl⟩, ⟨_, rfl⟩, ⟨_, rfl⟩, ⟨_, rfl⟩,
   fun z => pyRound5_nearest layer.xmin z, fun z => pyRound5_nearest layer.xmax z,
   fun z => pyRound5_nearest layer.ymin z, fun z => pyRound5_nearest layer.ymax z,
   pyRound5_half_ulp layer.xmin, pyRound5_half_ulp layer.xmax,
   pyRound5_half_ulp layer.ymin, pyRound5_half_ulp layer.ymax, rfl⟩

/-- C10. `willDeleteLayersOnPublication` returns false whenever the
target workspace does not exist remotely; when it exists, it returns
true exactly when the workspace holds at least one layer whose name is
not in the publish list. -/
theorem c10_willDeleteLayers_iff (st : GSState) (toPublish : List String) :
    (st.ws ∉ st.remote.workspaces →
      (willDeleteLayersOnPublication st toPublish).2 = false) ∧
    (st.ws ∈ st.remote.workspaces →
      ((willDeleteLayersOnPublication st toPublish).2 = true ↔
        ∃ l ∈ st.remote.layers, l ∉ toPublish)) := by
  unfold willDeleteLayersOnPublication
  rw [workspaceExists_eq]
  by_cases hw : st.ws ∈ st.remote.workspaces
  · rw [contains_true_of_mem hw]
    simp only [layersOp_eq, if_true]
    constructor
    · intro h; exact absurd hw h
    · intro _
      by_cases he : st.remote.layers.toFinset \ toPublish.toFinset = ∅
      · simp only [he, if_pos rfl]
        constructor
        · intro h; exact absurd h (by simp)
        · rintro ⟨l, hl, hnp⟩
          have hmem : l ∈ st.remote.layers.toFinset \ toPublish.toFinset := by
            rw [Finset.mem_sdiff, List.mem_toFinset, List.mem_toFinset]
            exact ⟨hl, hnp⟩
          rw [he] at hmem
          exact absurd hmem (by simp)
      · simp only [he, if_neg he]
        constructor
        · intro _
          obtain ⟨l, hl⟩ := Finset.nonempty_iff_ne_empty.mpr he
          rw [Finset.mem_sdiff, List.mem_toFinset, List.mem_toFinset] at hl
          exact ⟨l, hl.1, hl.2⟩
        · intro _; rfl
  · rw [contains_false_of_not_mem hw]
    constructor
    · intro _; simp
    · intro h; exact absurd h hw

/-- C10 (witness). A workspace holding layers `a` and `b` with only `a`
to publish: the check reports an impending deletion. -/
theorem c10_willDeleteLayers_iff_witness :
    stC10.ws ∈ stC10.remote.workspaces ∧
    ((willDeleteLayersOnPublication stC10 ["a"]).2 = true ↔
      ∃ l ∈ stC10.remote.layers, l ∉ ["a"]) :=
  ⟨by decide, (c10_willDeleteLayers_iff stC10 ["a"]).2 (by decide)⟩

end GeoBridge
